import Mathlib

/-!
Shallow embedding of the core of the smo-multi-rs relay server:
the binary wire codec (src/net/packet.rs), the Guid textual form
(src/guid.rs), the coordinator command handling (src/coordinator.rs),
and the client task packet handling / handshake (src/client.rs).

Machine integers are modelled as Nat (u8/u16/u32 byte values) or Int
(i8/i32), with wrap-around made explicit where the source can overflow.
Rust String values are modelled by their UTF-8 byte sequences
(List Nat); f32 fields are modelled by their 32-bit patterns (Nat),
since the codec only moves their bytes.
-/

namespace SmoMulti

/-! ## Byte-level utilities -/

/-- Little-endian byte pair of a u16 value (put_u16_le). -/
def u16leBytes (n : Nat) : List Nat := [n % 256, n / 256 % 256]

/-- Little-endian bytes of a u32 value (put_u32_le). -/
def u32leBytes (n : Nat) : List Nat :=
  [n % 256, n / 256 % 256, n / 65536 % 256, n / 16777216 % 256]

/-- Value of two little-endian bytes (get_u16_le). -/
def u16leVal (a b : Nat) : Nat := a + 256 * b

/-- Value of four little-endian bytes (get_u32_le). -/
def u32leVal (a b c d : Nat) : Nat := a + 256 * b + 65536 * c + 16777216 * d

/-- Two's-complement byte written by put_i8 for an i8 value. -/
def i8Byte (i : Int) : Nat := (i % 256).toNat

/-- i8 value read by get_i8 from a byte. -/
def i8Val (b : Nat) : Int := if b < 128 then (b : Int) else (b : Int) - 256

/-- Little-endian bytes written by put_i32_le for an i32 value. -/
def i32leBytes (i : Int) : List Nat := u32leBytes (i % 4294967296).toNat

/-- i32 value read by get_i32_le from four bytes. -/
def i32Val (n : Nat) : Int := if n < 2147483648 then (n : Int) else (n : Int) - 4294967296

/-- Byte written for a Rust bool (false -> 0, true -> 1). -/
def boolByte (b : Bool) : Nat := if b then 1 else 0

/-- Byte sequence of a string literal, used to embed Rust string literals.
Every literal embedded in this development is ASCII, for which the
character codes are exactly the UTF-8 bytes. -/
def strBytes (s : String) : List Nat := s.toList.map Char.toNat

/-- UTF-8 validity of a byte sequence, as checked by std::str::from_utf8. -/
def utf8Valid : List Nat → Bool
  | [] => true
  | b :: rest =>
    if b < 0x80 then utf8Valid rest
    else if b < 0xC2 then false
    else if b < 0xE0 then
      match rest with
      | c1 :: rest2 => decide (0x80 ≤ c1 ∧ c1 < 0xC0) && utf8Valid rest2
      | [] => false
    else if b < 0xF0 then
      match rest with
      | c1 :: c2 :: rest2 =>
        let lo1 : Nat := if b = 0xE0 then 0xA0 else 0x80
        let hi1 : Nat := if b = 0xED then 0xA0 else 0xC0
        decide (lo1 ≤ c1 ∧ c1 < hi1) && decide (0x80 ≤ c2 ∧ c2 < 0xC0) && utf8Valid rest2
      | _ => false
    else if b < 0xF5 then
      match rest with
      | c1 :: c2 :: c3 :: rest2 =>
        let lo1 : Nat := if b = 0xF0 then 0x90 else 0x80
        let hi1 : Nat := if b = 0xF4 then 0x90 else 0xC0
        decide (lo1 ≤ c1 ∧ c1 < hi1) && decide (0x80 ≤ c2 ∧ c2 < 0xC0)
          && decide (0x80 ≤ c3 ∧ c3 < 0xC0) && utf8Valid rest2
      | _ => false
    else false

/-- Trailing-NUL removal (the tail half of trim_matches(char::from(0))). -/
def trimEndNulls (l : List Nat) : List Nat :=
  ((l.reverse).dropWhile (fun b => b == 0)).reverse

/-- Both-ends NUL removal performed by trim_matches(char::from(0)) on a &str.
A NUL is a one-byte character, so trimming characters equals trimming bytes. -/
def trimNulls (l : List Nat) : List Nat :=
  trimEndNulls (l.dropWhile (fun b => b == 0))

/-- Fixed-size NUL-padded buffer written by str_to_sized_array::<N>. -/
def strToSizedArray (n : Nat) (s : List Nat) : List Nat :=
  s.take n ++ List.replicate (n - s.length) 0

/-! ## Guid (src/guid.rs) -/

/-- Guid: 16-byte player identity ([u8; 16]). -/
structure Guid where
  id : List Nat
deriving DecidableEq, Repr

/-- Guid::default(): all-zero id. -/
def Guid.default : Guid := ⟨List.replicate 16 0⟩

/-- Lowercase hex digit of a value below 16 ({:x} formatting). -/
def hexDigit (n : Nat) : Char := if n < 10 then Char.ofNat (48 + n) else Char.ofNat (87 + n)

/-- Two lowercase hex digits of a byte ({:02x} formatting, byte < 256). -/
def byteHex (b : Nat) : List Char := [hexDigit (b / 16), hexDigit (b % 16)]

/-- Display for Guid: each byte as {:02x}, and a dash written immediately
after the bytes at (0-based) indices 4, 6, 8 and 10. -/
def guidDisplay (g : Guid) : List Char :=
  (g.id.enum.map (fun p =>
    byteHex p.2 ++ (if p.1 = 4 ∨ p.1 = 6 ∨ p.1 = 8 ∨ p.1 = 10 then ['-'] else []))).flatten

/-! ## Wire protocol data model (src/net/packet.rs) -/

/-- Field size constants from src/net/packet.rs. -/
def COSTUME_NAME_SIZE : Nat := 0x20

def CAP_ANIM_SIZE : Nat := 0x30

def STAGE_GAME_NAME_SIZE : Nat := 0x40

def STAGE_CHANGE_NAME_SIZE : Nat := 0x30

def STAGE_ID_SIZE : Nat := 0x10

def CLIENT_NAME_SIZE : Nat := COSTUME_NAME_SIZE

/-- Modelled from the spec: Vector3 is three little-endian IEEE-754 f32s
(src/types.rs and src/net/encoding.rs are not part of the given sources).
Each component is kept as its 32-bit pattern. -/
structure Vector3 where
  x : Nat
  y : Nat
  z : Nat
deriving DecidableEq, Repr

/-- Modelled from the spec: Quaternion is four little-endian IEEE-754 f32s,
kept as 32-bit patterns in wire order. -/
structure Quaternion where
  c0 : Nat
  c1 : Nat
  c2 : Nat
  c3 : Nat
deriving DecidableEq, Repr

/-- Modelled from the spec: Costume (src/types.rs is not part of the given
sources) carries a body name and a cap name, each a string of at most 0x20 bytes. -/
structure Costume where
  body_name : List Nat
  cap_name : List Nat
deriving DecidableEq, Repr

/-- Modelled from the spec: encoding errors of the wire codec (src/types.rs
is not part of the given sources). -/
inductive EncodingError where
  | notEnoughData
  | badUtf8
  | connectionClose
  | connectionReset
deriving DecidableEq, Repr

/-- ConnectionType from src/net/packet.rs. -/
inductive ConnectionType where
  | firstConnection
  | reconnecting
deriving DecidableEq, BEq, Repr

/-- GameMode from src/net/packet.rs. -/
inductive GameMode where
  | legacy
  | hideAndSeek
  | sardines
  | freezeTag
  | unknown04
  | unknown05
  | unknown06
  | unknown07
  | unknown08
  | unknown09
  | unknown10
  | unknown11
  | unknown12
  | unknown13
  | reserved
  | none
deriving DecidableEq, BEq, Repr

/-- GameMode::from_u8. -/
def GameMode.fromU8 (x : Nat) : GameMode :=
  match x with
  | 0 => .legacy
  | 1 => .hideAndSeek
  | 2 => .sardines
  | 3 => .freezeTag
  | 4 => .unknown04
  | 5 => .unknown05
  | 6 => .unknown06
  | 7 => .unknown07
  | 8 => .unknown08
  | 9 => .unknown09
  | 10 => .unknown10
  | 11 => .unknown11
  | 12 => .unknown12
  | 13 => .unknown13
  | 14 => .reserved
  | _ => .none

/-- GameMode::to_u8. -/
def GameMode.toU8 (x : GameMode) : Nat :=
  match x with
  | .legacy => 0
  | .hideAndSeek => 1
  | .sardines => 2
  | .freezeTag => 3
  | .unknown04 => 4
  | .unknown05 => 5
  | .unknown06 => 6
  | .unknown07 => 7
  | .unknown08 => 8
  | .unknown09 => 9
  | .unknown10 => 10
  | .unknown11 => 11
  | .unknown12 => 12
  | .unknown13 => 13
  | .reserved => 14
  | .none => 15

/-- TagUpdate from src/net/packet.rs. -/
inductive TagUpdate where
  | unknown
  | time
  | state
  | both
deriving DecidableEq, BEq, Repr

/-- Low-nibble code written on encode for a TagUpdate. -/
def TagUpdate.code (u : TagUpdate) : Nat :=
  match u with
  | .unknown => 0
  | .time => 1
  | .state => 2
  | .both => 3

/-- PacketData from src/net/packet.rs. Strings are UTF-8 byte lists,
f32 fields are 32-bit patterns, i8/i32 fields are Ints. -/
inductive PacketData where
  | unhandled (tag : Nat) (data : List Nat)
  | init (max_players : Nat)
  | player (pos : Vector3) (rot : Quaternion) (animation_blend_weights : List Nat)
      (act : Nat) (sub_act : Nat)
  | cap (pos : Vector3) (rot : Quaternion) (cap_out : Bool) (cap_anim : List Nat)
  | game (is_2d : Bool) (scenario_num : Int) (stage : List Nat)
  | tag (game_mode : GameMode) (update_type : TagUpdate) (is_it : Bool)
      (seconds : Nat) (minutes : Nat)
  | gameMode (game_mode : GameMode) (update_type : Nat) (data : List Nat)
  | connect (c_type : ConnectionType) (max_player : Nat) (client_name : List Nat)
  | disconnect
  | costume (c : Costume)
  | shine (shine_id : Int) (is_grand : Bool)
  | capture (model : List Nat)
  | changeStage (stage : List Nat) (id : List Nat) (scenario : Int) (sub_scenario : Nat)
  | command
  | udpInit (port : Nat)
  | holePunch
  | jsonApi (json : List Nat)
deriving DecidableEq, Repr

/-- PacketData::get_size. -/
def PacketData.getSize : PacketData → Nat
  | .unhandled _ data => data.length
  | .init _ => 2
  | .player _ _ _ _ _ => 0x38
  | .cap _ _ _ _ => 29 + CAP_ANIM_SIZE
  | .game _ _ _ => 2 + STAGE_GAME_NAME_SIZE
  | .tag _ _ _ _ _ => 5
  | .gameMode _ _ data => 1 + data.length
  | .connect _ _ _ => 6 + CLIENT_NAME_SIZE
  | .disconnect => 0
  | .costume _ => COSTUME_NAME_SIZE * 2
  | .shine _ _ => 5
  | .capture _ => COSTUME_NAME_SIZE
  | .changeStage _ _ _ _ => STAGE_ID_SIZE + STAGE_CHANGE_NAME_SIZE + 2
  | .command => 0
  | .udpInit _ => 2
  | .holePunch => 0
  | .jsonApi json => json.length

/-- PacketData::get_type_id. -/
def PacketData.getTypeId : PacketData → Nat
  | .unhandled t _ => t
  | .init _ => 1
  | .player _ _ _ _ _ => 2
  | .cap _ _ _ _ => 3
  | .game _ _ _ => 4
  | .tag _ _ _ _ _ => 5
  | .gameMode _ _ _ => 5
  | .connect _ _ _ => 6
  | .disconnect => 7
  | .costume _ => 8
  | .shine _ _ => 9
  | .capture _ => 10
  | .changeStage _ _ _ _ => 11
  | .command => 12
  | .udpInit _ => 13
  | .holePunch => 14
  | .jsonApi _ => 0x5453

/-- Packet from src/net/packet.rs. -/
structure Packet where
  id : Guid
  data_size : Nat
  data : PacketData
deriving DecidableEq, Repr

/-- Packet::new: data_size is computed from the data. -/
def Packet.new (id : Guid) (data : PacketData) : Packet :=
  ⟨id, data.getSize, data⟩

/-- Packet::resize: recompute data_size (mod 2^16, the u16 cast). -/
def Packet.resize (p : Packet) : Packet :=
  { p with data_size := p.data.getSize % 65536 }

/-! ## Encoder (Packet::encode, src/net/packet.rs lines 433-556) -/

/-- Payload bytes written by Packet::encode for each PacketData variant. -/
def encodeData : PacketData → List Nat
  | .unhandled _ data => data
  | .init max_players => u16leBytes max_players
  | .player pos rot weights act sub_act =>
    u32leBytes pos.x ++ u32leBytes pos.y ++ u32leBytes pos.z
      ++ u32leBytes rot.c0 ++ u32leBytes rot.c1 ++ u32leBytes rot.c2 ++ u32leBytes rot.c3
      ++ (weights.map u32leBytes).flatten
      ++ u16leBytes act ++ u16leBytes sub_act
  | .cap pos rot cap_out cap_anim =>
    u32leBytes pos.x ++ u32leBytes pos.y ++ u32leBytes pos.z
      ++ u32leBytes rot.c0 ++ u32leBytes rot.c1 ++ u32leBytes rot.c2 ++ u32leBytes rot.c3
      ++ [boolByte cap_out] ++ strToSizedArray CAP_ANIM_SIZE cap_anim
  | .game is_2d scenario_num stage =>
    [boolByte is_2d] ++ [i8Byte scenario_num] ++ strToSizedArray STAGE_GAME_NAME_SIZE stage
  | .tag game_mode update_type is_it seconds minutes =>
    [(game_mode.toU8 * 16) ||| update_type.code] ++ [boolByte is_it]
      ++ [seconds] ++ u16leBytes minutes
  | .gameMode game_mode update_type data =>
    [(game_mode.toU8 * 16) ||| update_type] ++ data
  | .connect c_type max_player client_name =>
    u32leBytes (match c_type with | .firstConnection => 0 | .reconnecting => 1)
      ++ u16leBytes max_player ++ strToSizedArray CLIENT_NAME_SIZE client_name
  | .disconnect => []
  | .costume c =>
    strToSizedArray COSTUME_NAME_SIZE c.body_name
      ++ strToSizedArray COSTUME_NAME_SIZE c.cap_name
  | .shine shine_id is_grand => i32leBytes shine_id ++ [boolByte is_grand]
  | .capture model => strToSizedArray COSTUME_NAME_SIZE model
  | .changeStage stage id scenario sub_scenario =>
    strToSizedArray STAGE_CHANGE_NAME_SIZE stage ++ strToSizedArray STAGE_ID_SIZE id
      ++ [i8Byte scenario] ++ [sub_scenario]
  | .command => []
  | .udpInit port => u16leBytes port
  | .holePunch => []
  | .jsonApi _ => []

/-- Packet::encode: 16-byte id, u16-LE type id, u16-LE data_size, payload. -/
def encode (p : Packet) : List Nat :=
  p.id.id ++ u16leBytes p.data.getTypeId ++ u16leBytes p.data_size ++ encodeData p.data

/-! ## Decoder (Packet::decode, src/net/packet.rs lines 292-431) -/

/-- Result of one field read from the remaining bytes. A read past the end
of the buffer is a panic of the bytes crate, kept distinct from the codec
errors; badUtf8 models a failed std::str::from_utf8. -/
inductive ReadResult (α : Type) where
  | ok (v : α) (rest : List Nat)
  | badUtf8
  | panic
deriving Repr

/-- Sequencing of reads. -/
def ReadResult.bind {α β : Type} : ReadResult α → (α → List Nat → ReadResult β) → ReadResult β
  | .ok v rest, f => f v rest
  | .badUtf8, _ => .badUtf8
  | .panic, _ => .panic

/-- get_u8. -/
def readU8 : List Nat → ReadResult Nat
  | [] => .panic
  | b :: rest => .ok b rest

/-- copy_to_bytes n. -/
def readChunk (n : Nat) (l : List Nat) : ReadResult (List Nat) :=
  if n ≤ l.length then .ok (l.take n) (l.drop n) else .panic

/-- get_u16_le. -/
def readU16le (l : List Nat) : ReadResult Nat :=
  (readU8 l).bind fun a r1 =>
  (readU8 r1).bind fun b r2 =>
  .ok (u16leVal a b) r2

/-- get_u32_le. -/
def readU32le (l : List Nat) : ReadResult Nat :=
  (readU8 l).bind fun a r1 =>
  (readU8 r1).bind fun b r2 =>
  (readU8 r2).bind fun c r3 =>
  (readU8 r3).bind fun d r4 =>
  .ok (u32leVal a b c d) r4

/-- get_i8. -/
def readI8 (l : List Nat) : ReadResult Int :=
  (readU8 l).bind fun b r => .ok (i8Val b) r

/-- get_i32_le. -/
def readI32le (l : List Nat) : ReadResult Int :=
  (readU32le l).bind fun n r => .ok (i32Val n) r

/-- Modelled from the spec: Vector3::decode reads three little-endian f32s
(src/net/encoding.rs is not part of the given sources). -/
def readVector3 (l : List Nat) : ReadResult Vector3 :=
  (readU32le l).bind fun x r1 =>
  (readU32le r1).bind fun y r2 =>
  (readU32le r2).bind fun z r3 =>
  .ok ⟨x, y, z⟩ r3

/-- Modelled from the spec: Quaternion::decode reads four little-endian f32s. -/
def readQuaternion (l : List Nat) : ReadResult Quaternion :=
  (readU32le l).bind fun a r1 =>
  (readU32le r1).bind fun b r2 =>
  (readU32le r2).bind fun c r3 =>
  (readU32le r3).bind fun d r4 =>
  .ok ⟨a, b, c, d⟩ r4

/-- std::str::from_utf8 on a fixed-size chunk, without any trimming
(the cap_anim read at src/net/packet.rs line 333). -/
def readRawString (n : Nat) (l : List Nat) : ReadResult (List Nat) :=
  (readChunk n l).bind fun s r =>
  if utf8Valid s then .ok s r else .badUtf8

/-- buf_size_to_string: fixed-size chunk, from_utf8, trim_matches(NUL). -/
def readTrimmedString (n : Nat) (l : List Nat) : ReadResult (List Nat) :=
  (readChunk n l).bind fun s r =>
  if utf8Valid s then .ok (trimNulls s) r else .badUtf8

/-- Update-type nibble mapping of the Tag arm of Packet::decode
(src/net/packet.rs lines 348-353). -/
def tagUpdateFromNibble (u : Nat) : TagUpdate :=
  match u with
  | 1 => .time
  | 2 => .state
  | 3 => .both
  | _ => .unknown

/-- Per-type payload decoding (the match on p_type in Packet::decode).
The id argument is needed only by the JsonApi arm. -/
def decodeArm (pType pSize : Nat) (id : List Nat) (body : List Nat) :
    ReadResult PacketData :=
  match pType with
  | 1 => (readU16le body).bind fun mp r => .ok (.init mp) r
  | 2 =>
    (readVector3 body).bind fun pos r1 =>
    (readQuaternion r1).bind fun rot r2 =>
    (readU32le r2).bind fun w0 r3 =>
    (readU32le r3).bind fun w1 r4 =>
    (readU32le r4).bind fun w2 r5 =>
    (readU32le r5).bind fun w3 r6 =>
    (readU32le r6).bind fun w4 r7 =>
    (readU32le r7).bind fun w5 r8 =>
    (readU16le r8).bind fun act r9 =>
    (readU16le r9).bind fun sub_act r10 =>
    .ok (.player pos rot [w0, w1, w2, w3, w4, w5] act sub_act) r10
  | 3 =>
    (readVector3 body).bind fun pos r1 =>
    (readQuaternion r1).bind fun rot r2 =>
    (readU8 r2).bind fun cap_out r3 =>
    (readRawString COSTUME_NAME_SIZE r3).bind fun cap_anim r4 =>
    .ok (.cap pos rot (cap_out != 0) cap_anim) r4
  | 4 =>
    (readU8 body).bind fun is_2d r1 =>
    (readI8 r1).bind fun scenario_num r2 =>
    (readTrimmedString STAGE_GAME_NAME_SIZE r2).bind fun stage r3 =>
    .ok (.game (is_2d != 0) scenario_num stage) r3
  | 5 =>
    (readU8 body).bind fun both r1 =>
    let game_mode := GameMode.fromU8 ((both &&& 0b11110000) >>> 4)
    let update_type := both &&& 0b1111
    if game_mode = .hideAndSeek ∨ game_mode = .sardines
        ∨ (game_mode = .legacy ∧ update_type = 3) then
      (readU8 r1).bind fun is_it r2 =>
      (readU8 r2).bind fun seconds r3 =>
      (readU16le r3).bind fun minutes r4 =>
      .ok (.tag game_mode (tagUpdateFromNibble update_type) (is_it != 0) seconds minutes) r4
    else
      if pSize = 0 then .panic
      else
        (readChunk (pSize - 1) r1).bind fun data r2 =>
        .ok (.gameMode game_mode update_type data) r2
  | 6 =>
    (readU32le body).bind fun ct r1 =>
    let c_type : ConnectionType :=
      if ct = 0 then .firstConnection else .reconnecting
    (readU16le r1).bind fun max_player r2 =>
    (readTrimmedString CLIENT_NAME_SIZE r2).bind fun client_name r3 =>
    .ok (.connect c_type max_player client_name) r3
  | 7 => .ok .disconnect body
  | 8 =>
    (readTrimmedString COSTUME_NAME_SIZE body).bind fun body_name r1 =>
    (readTrimmedString COSTUME_NAME_SIZE r1).bind fun cap_name r2 =>
    .ok (.costume ⟨body_name, cap_name⟩) r2
  | 9 =>
    (readI32le body).bind fun shine_id r1 =>
    (readU8 r1).bind fun is_grand r2 =>
    .ok (.shine shine_id (is_grand != 0)) r2
  | 10 =>
    (readTrimmedString COSTUME_NAME_SIZE body).bind fun model r =>
    .ok (.capture model) r
  | 11 =>
    (readTrimmedString STAGE_CHANGE_NAME_SIZE body).bind fun stage r1 =>
    (readTrimmedString STAGE_ID_SIZE r1).bind fun sid r2 =>
    (readI8 r2).bind fun scenario r3 =>
    (readU8 r3).bind fun sub_scenario r4 =>
    .ok (.changeStage stage sid scenario sub_scenario) r4
  | 12 => .ok .command body
  | 13 => (readU16le body).bind fun port r => .ok (.udpInit port) r
  | 14 => .ok .holePunch body
  | 0x5453 =>
    let tb : List Nat := [pType % 256, pType / 256 % 256]
    let sb : List Nat := [pSize % 256, pSize / 256 % 256]
    if utf8Valid id && utf8Valid tb && utf8Valid sb && utf8Valid body then
      .ok (.jsonApi (id ++ tb ++ sb ++ body)) []
    else .badUtf8
  | _ => (readChunk pSize body).bind fun data r => .ok (.unhandled pType data) r

/-- Overall decode result: a decoded packet with the unconsumed bytes, a
codec error, or a panic of the underlying byte reads. -/
inductive DecodeResult where
  | ok (p : Packet) (rest : List Nat)
  | err (e : EncodingError)
  | panic
deriving DecidableEq, Repr

/-- Body of Packet::decode once the 20-byte header has been split off. -/
def decodeBody (id : List Nat) (pType pSize : Nat) (body : List Nat) (totalSize : Nat) :
    DecodeResult :=
  if pType ≠ 0x5453 ∧ body.length < pSize then .err .notEnoughData
  else
    match decodeArm pType pSize id body with
    | .badUtf8 => .err .badUtf8
    | .panic => .panic
    | .ok data rest =>
      let pSize' := if pType = 0x5453 then totalSize % 65536 else pSize
      if pSize' < data.getSize then .panic
      else
        let excess := pSize' - data.getSize
        if rest.length < excess then .panic
        else .ok ⟨⟨id⟩, pSize', data⟩ (rest.drop excess)

/-- Packet::decode over a byte buffer. -/
def decode (buf : List Nat) : DecodeResult :=
  if buf.length < 16 + 2 + 2 then .err .notEnoughData
  else
    decodeBody (buf.take 16)
      (u16leVal (buf.getD 16 0) (buf.getD 17 0))
      (u16leVal (buf.getD 18 0) (buf.getD 19 0))
      (buf.drop 20) buf.length

/-! ## Rust equality (derived PartialEq with f32 semantics) -/

/-- NaN test on an f32 bit pattern (exponent all ones, mantissa nonzero). -/
def f32IsNaN (bits : Nat) : Bool :=
  decide ((bits / 8388608) % 256 = 255 ∧ bits % 8388608 ≠ 0)

/-- Rust f32 equality on bit patterns: NaN is unequal to everything,
+0.0 equals -0.0, every other value has a unique bit pattern. -/
def f32Eq (a b : Nat) : Bool :=
  if f32IsNaN a || f32IsNaN b then false
  else if a % 2147483648 = 0 ∧ b % 2147483648 = 0 then true
  else a == b

/-- PartialEq for Vector3 (componentwise f32 equality). -/
def vec3Eq (a b : Vector3) : Bool :=
  f32Eq a.x b.x && f32Eq a.y b.y && f32Eq a.z b.z

/-- PartialEq for Quaternion (componentwise f32 equality). -/
def quatEq (a b : Quaternion) : Bool :=
  f32Eq a.c0 b.c0 && f32Eq a.c1 b.c1 && f32Eq a.c2 b.c2 && f32Eq a.c3 b.c3

/-- Derived PartialEq for PacketData: fieldwise, with f32 semantics for
float fields and byte equality for strings. -/
def packetDataEq (a b : PacketData) : Bool :=
  match a, b with
  | .unhandled t1 d1, .unhandled t2 d2 => t1 == t2 && d1 == d2
  | .init m1, .init m2 => m1 == m2
  | .player p1 r1 w1 a1 s1, .player p2 r2 w2 a2 s2 =>
    vec3Eq p1 p2 && quatEq r1 r2 && w1.length == w2.length
      && (List.zipWith f32Eq w1 w2).all id && a1 == a2 && s1 == s2
  | .cap p1 r1 o1 an1, .cap p2 r2 o2 an2 =>
    vec3Eq p1 p2 && quatEq r1 r2 && o1 == o2 && an1 == an2
  | .game i1 sc1 st1, .game i2 sc2 st2 => i1 == i2 && sc1 == sc2 && st1 == st2
  | .tag g1 u1 i1 s1 m1, .tag g2 u2 i2 s2 m2 =>
    g1 == g2 && u1 == u2 && i1 == i2 && s1 == s2 && m1 == m2
  | .gameMode g1 u1 d1, .gameMode g2 u2 d2 => g1 == g2 && u1 == u2 && d1 == d2
  | .connect c1 m1 n1, .connect c2 m2 n2 => c1 == c2 && m1 == m2 && n1 == n2
  | .disconnect, .disconnect => true
  | .costume c1, .costume c2 => c1.body_name == c2.body_name && c1.cap_name == c2.cap_name
  | .shine s1 g1, .shine s2 g2 => s1 == s2 && g1 == g2
  | .capture m1, .capture m2 => m1 == m2
  | .changeStage st1 id1 sc1 su1, .changeStage st2 id2 sc2 su2 =>
    st1 == st2 && id1 == id2 && sc1 == sc2 && su1 == su2
  | .command, .command => true
  | .udpInit p1, .udpInit p2 => p1 == p2
  | .holePunch, .holePunch => true
  | .jsonApi j1, .jsonApi j2 => j1 == j2
  | _, _ => false

/-- Derived PartialEq for Packet. -/
def packetEq (a b : Packet) : Bool :=
  a.id.id == b.id.id && a.data_size == b.data_size && packetDataEq a.data b.data

/-! ## Lobby state (src/client.rs PlayerData, src/lobby.rs, src/settings.rs) -/

/-- PlayerData from src/client.rs (lines 39-55). The outbound channel is
represented by the owning guid in effects; ipv4 is kept abstract; time
(a Duration built from whole seconds) is kept as seconds. -/
structure PlayerData where
  ipv4 : Option (List Nat)
  name : List Nat
  shine_sync : Finset Int
  scenario : Int
  is_2d : Bool
  is_seeking : Option Bool
  last_capture_packet : Option Packet
  last_costume_packet : Option Packet
  last_game_packet : Option Packet
  last_player_packet : Option Packet
  disable_shine_sync : Bool
  loaded_save : Bool
  time : Option Nat
deriving DecidableEq

/-- Modelled from the spec: shine settings (enabled, excluded); the settings
struct in the given src/settings.rs predates the shines field used by
src/coordinator.rs and src/console.rs. -/
structure ShinesSettings where
  enabled : Bool
  excluded : Finset Int
deriving DecidableEq

/-- Ban-list settings; the stages set is modelled from the spec (the given
src/settings.rs lacks it while src/coordinator.rs line 96 uses it). -/
structure BanListSettings where
  enabled : Bool
  stages : Finset (List Nat)
deriving DecidableEq

/-- ScenarioSettings from src/settings.rs. -/
structure ScenarioSettings where
  merge_enabled : Bool
deriving DecidableEq

/-- PersistShine settings from src/settings.rs. -/
structure PersistShine where
  enabled : Bool
  filename : List Nat
deriving DecidableEq

/-- The slice of Settings consumed by the coordinator. -/
structure Settings where
  shines : ShinesSettings
  ban_list : BanListSettings
  scenario : ScenarioSettings
  persist_shines : PersistShine
deriving DecidableEq

/-- Lobby: player map (as an association list), server shine set, settings
snapshot. -/
structure Lobby where
  players : List (Guid × PlayerData)
  shines : Finset Int
  settings : Settings
deriving DecidableEq

/-- Lobby::get_client. -/
def lookupPlayer (ps : List (Guid × PlayerData)) (g : Guid) : Option PlayerData :=
  (ps.find? (fun q => decide (q.1 = g))).map Prod.snd

/-- Lobby::get_mut_client followed by a field update. -/
def updatePlayer (ps : List (Guid × PlayerData)) (g : Guid)
    (f : PlayerData → PlayerData) : List (Guid × PlayerData) :=
  ps.map (fun q => if q.1 = g then (q.1, f q.2) else q)

/-- ClientCommand from src/cmds (Packet / SelfAddressed are the two kinds
the claims use). -/
inductive ClientCommand where
  | packet (p : Packet)
  | selfAddressed (p : Packet)
deriving DecidableEq

/-- Observable effects of one coordinator step: a send on one player
channel, a broadcast, the two Shine info logs, the spawned best-effort
persistence task, the spawned delayed crash, and the spawned delayed
shine-sync re-enable task. Debug/trace logging is not modelled. -/
inductive Effect where
  | sendTo (g : Guid) (c : ClientCommand)
  | broadcast (c : ClientCommand)
  | log
  | persistShines (filename : List Nat) (shines : Finset Int)
  | spawnCrash (g : Guid)
  | spawnEnableShineSync (g : Guid)
deriving DecidableEq

/-! ## Coordinator (src/coordinator.rs) -/

/-- client_sync_shines (src/coordinator.rs lines 492-514): send one
SelfAddressed Shine{s, is_grand=false} per s in server_shines minus
client_shines, in BTreeSet ascending order. The channel argument is
represented by the receiving player guid. -/
def clientSyncShines (toClient : Guid) (serverShines : Finset Int)
    (senderGuid : Guid) (clientShines : Finset Int) : List Effect :=
  ((serverShines \ clientShines).sort (fun a b => a ≤ b)).map (fun s =>
    .sendTo toClient (.selfAddressed (Packet.new senderGuid (.shine s false))))

/-- Coordinator::sync_all_shines (src/coordinator.rs lines 450-477). -/
def syncAllShines (l : Lobby) : List Effect :=
  if !l.settings.shines.enabled then []
  else
    l.players.flatMap (fun q =>
      if q.2.disable_shine_sync then []
      else clientSyncShines q.1 l.shines Guid.default
        (q.2.shine_sync ∪ l.settings.shines.excluded))

/-- Coordinator::persist_shines (src/coordinator.rs lines 290-302): spawn a
best-effort save task when persistence is enabled. -/
def persistShinesEffects (l : Lobby) : List Effect :=
  if l.settings.persist_shines.enabled then
    [.persistShines l.settings.persist_shines.filename l.shines]
  else []

/-- Literal stage names from src/coordinator.rs line 123. -/
def capWorldHomeStage : List Nat := strBytes "CapWorldHomeStage"

def capWorldTowerStage : List Nat := strBytes "CapWorldTowerStage"

/-- Shared tail of the Game arm: optional scenario-merge rebroadcast, then
the line-180 broadcast of the original packet. -/
def gameTailEffects (l : Lobby) (p : Packet) : List Effect :=
  (if l.settings.scenario.merge_enabled then [.broadcast (.selfAddressed p)] else [])
    ++ [.broadcast (.packet p)]

/-- Command::Packet handling by Coordinator::handle_command
(src/coordinator.rs lines 67-181). The error case is the SMOError
propagated by get_client when the sender is not in the player map. -/
def handlePacketCmd (l : Lobby) (p : Packet) : Except Unit (Lobby × List Effect) :=
  match p.data with
  | .costume _ =>
    .ok (l, syncAllShines l ++ [.broadcast (.packet p)])
  | .shine shine_id _ =>
    if shine_id ∈ l.settings.shines.excluded then
      .ok (l, [.log])
    else
      let l2 := { l with shines := insert shine_id l.shines }
      .ok (l2, [.log] ++ syncAllShines l2)
  | .game _ scenario_num stage =>
    if l.settings.ban_list.enabled ∧ stage ∈ l.settings.ban_list.stages then
      .ok (l, [.spawnCrash p.id])
    else
      match lookupPlayer l.players p.id with
      | Option.none => .error ()
      | Option.some player =>
        if (stage = capWorldHomeStage ∨ stage = capWorldTowerStage) ∧ scenario_num = 1 then
          if !player.disable_shine_sync then
            let l2 : Lobby :=
              { l with
                players := updatePlayer l.players p.id (fun d =>
                  { d with disable_shine_sync := true, shine_sync := ∅ }),
                shines := ∅ }
            .ok (l2, persistShinesEffects l2 ++ gameTailEffects l2 p)
          else .ok (l, gameTailEffects l p)
        else
          if player.disable_shine_sync then
            .ok (l, [.spawnEnableShineSync p.id] ++ gameTailEffects l p)
          else .ok (l, gameTailEffects l p)
  | _ => .ok (l, [.broadcast (.packet p)])

/-- Per-player mutation of the external Shine Clear loop
(src/coordinator.rs line 274): clear shine_sync, keep every other field. -/
def clearShineSync (d : PlayerData) : PlayerData := { d with shine_sync := ∅ }

/-- ShineCommand from src/cmds.rs. -/
inductive ShineCommand where
  | sync
  | clear
deriving DecidableEq

/-- ExternalCommand::Shine handling by Coordinator::handle_external_cmd
(src/coordinator.rs lines 265-278): new lobby, effects, reply string. -/
def handleExternalShineCmd (l : Lobby) : ShineCommand → Lobby × List Effect × String
  | .sync => (l, syncAllShines l, "Synced shine bags")
  | .clear =>
    ({ l with
        shines := ∅,
        players := l.players.map (fun q => (q.1, clearShineSync q.2)) },
      [], "Shines cleared")

/-! ## Client task (src/client.rs) -/

/-- The PlayerData mutation performed by the Game arm of
Client::handle_packet (src/client.rs lines 223-240): update is_2d and
scenario, clear last_player_packet when the stage differs from the cached
last Game packet, then cache the new Game packet. -/
def clientUpdateOnGame (d : PlayerData) (p : Packet) : PlayerData :=
  match p.data with
  | .game is_2d scenario_num stage =>
    let d1 := { d with is_2d := is_2d, scenario := scenario_num }
    let d2 :=
      match d1.last_game_packet with
      | Option.some q =>
        match q.data with
        | .game _ _ last_stage =>
          if stage ≠ last_stage then { d1 with last_player_packet := Option.none } else d1
        | _ => d1
      | Option.none => d1
    { d2 with last_game_packet := Option.some p }
  | _ => d

/-- Packet reads and writes visible on one client connection. -/
inductive HsEvent where
  | readPacket (p : Packet)
  | writePacket (p : Packet)
deriving DecidableEq

/-- ClientInitError from src/types.rs (modelled from the spec), together
with the read failure of an exhausted input. -/
inductive ClientInitError where
  | badHandshake
  | duplicateClient
  | bannedID
  | recvFailed
deriving DecidableEq

/-- Client::ignore_client (src/client.rs lines 519-560): write Init{1},
then consume packets until the stream ends, answering each Game packet
with the crash ChangeStage. -/
def ignoreTrace (input : List Packet) : List HsEvent :=
  [.writePacket (Packet.new Guid.default (.init 1))]
    ++ input.flatMap (fun p =>
      [HsEvent.readPacket p] ++
      match p.data with
      | .game _ _ _ =>
        [HsEvent.writePacket (Packet.new Guid.default
          (.changeStage (strBytes "$agogusStage") (strBytes "$among$us/SubArea") 21 69))]
      | _ => [])

/-- Client::initialize_client (src/client.rs lines 400-517) as a trace
machine over the inbound packet stream: read one packet; on Connect,
check the ban list (banned ids get the ignore path), write
Init{max_players}, run the FirstConnection duplicate check against the
name bijection, optionally start the UDP handshake. Any other first
packet fails with BadHandshake. Socket/UDP-bind failures are not
modelled. -/
def initializeClient (maxPlayers : Nat) (startUdpHandshake : Bool)
    (bannedPlayers : Finset Guid) (names : List (Guid × List Nat))
    (udpLocalPort : Nat) (input : List Packet) :
    List HsEvent × Except ClientInitError Unit :=
  match input with
  | [] => ([], .error .recvFailed)
  | connectP :: rest =>
    let t0 := [HsEvent.readPacket connectP]
    match connectP.data with
    | .connect c_type _ client_name =>
      if connectP.id ∈ bannedPlayers then
        (t0 ++ ignoreTrace rest, .error .bannedID)
      else
        let t1 := t0 ++ [HsEvent.writePacket (Packet.new Guid.default (.init maxPlayers))]
        let dup :=
          match c_type with
          | .firstConnection =>
            names.any (fun q => decide (q.1 = connectP.id))
              || names.any (fun q => decide (q.2 = client_name))
          | .reconnecting => false
        if dup then (t1, .error .duplicateClient)
        else
          (t1 ++ (if startUdpHandshake then
              [HsEvent.writePacket (Packet.new Guid.default (.udpInit udpLocalPort))]
            else []),
            .ok ())
    | _ => (t0, .error .badHandshake)

/-! ## Derived definitions used by the verification statements -/

/-- Discriminates the kind-5 first byte the way Packet::decode does, in
high/low-nibble arithmetic form: the byte decodes to a Tag variant exactly
when this holds. -/
def kind5IsTag (b : Nat) : Prop :=
  GameMode.fromU8 (b / 16) = .hideAndSeek ∨ GameMode.fromU8 (b / 16) = .sardines
    ∨ (GameMode.fromU8 (b / 16) = .legacy ∧ b % 16 = 3)

instance (b : Nat) : Decidable (kind5IsTag b) := by
  unfold kind5IsTag
  infer_instance

/-- Concatenated hex digits of all 16 Guid bytes. -/
def guidHexDigits (g : Guid) : List Char := (g.id.map byteHex).flatten

/-- Hex digits grouped 10-4-4-4-10 with dashes, the grouping actually
produced by the Display implementation. -/
def guidGroups1044410 (g : Guid) : List Char :=
  (guidHexDigits g).take 10 ++ ['-'] ++ ((guidHexDigits g).drop 10).take 4 ++ ['-']
    ++ ((guidHexDigits g).drop 14).take 4 ++ ['-'] ++ ((guidHexDigits g).drop 18).take 4
    ++ ['-'] ++ (guidHexDigits g).drop 22

/-- Hex digits grouped 8-4-4-4-12 with dashes, the canonical UUID grouping
asserted by the claim. -/
def guidGroups844412 (g : Guid) : List Char :=
  (guidHexDigits g).take 8 ++ ['-'] ++ ((guidHexDigits g).drop 8).take 4 ++ ['-']
    ++ ((guidHexDigits g).drop 12).take 4 ++ ['-'] ++ ((guidHexDigits g).drop 16).take 4
    ++ ['-'] ++ (guidHexDigits g).drop 20

/-- Broadcast-effect test. -/
def isBroadcastEffect : Effect → Bool
  | .broadcast _ => true
  | _ => false

/-- Persistence-task test. -/
def isPersistEffect : Effect → Bool
  | .persistShines _ _ => true
  | _ => false

/-- Commands sent on one player channel, in order. -/
def sentShineCmdsTo (g : Guid) (effs : List Effect) : List ClientCommand :=
  effs.filterMap (fun e =>
    match e with
    | .sendTo g2 c => if g2 = g then some c else none
    | _ => none)

/-- Lobby reached by the new-save gate fired for player g: the player gets
disable_shine_sync=true and an empty shine_sync, the server shine set is
cleared. -/
def gateLobby (l : Lobby) (g : Guid) : Lobby :=
  { l with
    players := updatePlayer l.players g (fun d =>
      { d with disable_shine_sync := true, shine_sync := ∅ }),
    shines := ∅ }

/-! ## Concrete fixtures for witnesses and counterexamples -/

/-- All-zero guid. -/
def zeroGuid : Guid := ⟨List.replicate 16 0⟩

/-- Guid of the first fixture player. -/
def oneGuid : Guid := ⟨List.replicate 16 1⟩

/-- Guid of the second fixture player. -/
def twoGuid : Guid := ⟨List.replicate 16 2⟩

/-- A fixture player with loaded_save set and everything else fresh. -/
def basePlayer : PlayerData :=
  ⟨Option.none, strBytes "A", ∅, 0, false, Option.none, Option.none, Option.none,
    Option.none, Option.none, false, true, Option.none⟩

/-- A fixture player with shine sync disabled and one synced shine. -/
def playerDisabled : PlayerData :=
  { basePlayer with
    name := strBytes "B",
    disable_shine_sync := true,
    shine_sync := ({1} : Finset Int) }

/-- Fixture settings: shine sync on, nothing excluded, no bans, no merge,
no persistence. -/
def settingsBase : Settings :=
  ⟨⟨true, ∅⟩, ⟨false, ∅⟩, ⟨false⟩, ⟨false, strBytes "./moons.json"⟩⟩

/-- Fixture settings with CapWorldHomeStage in the enabled stage ban list. -/
def settingsBanCap : Settings :=
  ⟨⟨true, ∅⟩, ⟨true, ({capWorldHomeStage} : Finset (List Nat))⟩, ⟨false⟩,
    ⟨false, strBytes "./moons.json"⟩⟩

/-- Fixture settings with shine sync disabled. -/
def settingsNoSync : Settings :=
  ⟨⟨false, ∅⟩, ⟨false, ∅⟩, ⟨false⟩, ⟨false, strBytes "./moons.json"⟩⟩

/-- Fixture settings with shine persistence enabled. -/
def settingsPersist : Settings :=
  ⟨⟨true, ∅⟩, ⟨false, ∅⟩, ⟨false⟩, ⟨true, strBytes "./moons.json"⟩⟩

/-- One-player lobby with base settings. -/
def lobbyOne : Lobby := ⟨[(oneGuid, basePlayer)], ∅, settingsBase⟩

/-- One-player lobby whose settings ban CapWorldHomeStage. -/
def lobbyBanCap : Lobby := ⟨[(oneGuid, basePlayer)], ({7} : Finset Int), settingsBanCap⟩

/-- One-player lobby with shine sync disabled and one server shine. -/
def lobbyNoSync : Lobby := ⟨[(oneGuid, basePlayer)], ({7} : Finset Int), settingsNoSync⟩

/-- One-player lobby with persistence enabled. -/
def lobbyPersist : Lobby := ⟨[(oneGuid, basePlayer)], ∅, settingsPersist⟩

/-- Two-player lobby: one eligible player, one with shine sync disabled. -/
def lobbyTwo : Lobby :=
  ⟨[(oneGuid, basePlayer), (twoGuid, playerDisabled)], ({1, 2} : Finset Int), settingsBase⟩

/-- Shine{42} packet from the fixture player. -/
def shinePkt42 : Packet := Packet.new oneGuid (.shine 42 false)

/-- Shine{7} packet from the fixture player. -/
def shinePkt7 : Packet := Packet.new oneGuid (.shine 7 false)

/-- Game packet entering CapWorldHomeStage scenario 1. -/
def gamePktCap : Packet := Packet.new oneGuid (.game false 1 capWorldHomeStage)

/-- The Cap packet on which the decode/encode asymmetry shows: a one-byte
cap_anim and zero float patterns. -/
def capBugInput : Packet := Packet.new zeroGuid (.cap ⟨0, 0, 0⟩ ⟨0, 0, 0, 0⟩ false (strBytes "a"))

/-- What decode actually returns for the encoding of capBugInput: cap_anim
padded to 32 bytes and untrimmed. -/
def capBugOutput : Packet :=
  Packet.new zeroGuid (.cap ⟨0, 0, 0⟩ ⟨0, 0, 0, 0⟩ false (strBytes "a" ++ List.replicate 31 0))

/-- A kind-5 frame whose first payload byte is 0x15 (HideAndSeek nibble,
update nibble 5). -/
def frame15C4 : List Nat :=
  List.replicate 16 0 ++ (u16leBytes 5 ++ (u16leBytes 5 ++ [0x15, 0, 0, 0, 0]))

/-- The guid with bytes 0x00..0x0f. -/
def guidC9 : Guid := ⟨List.range 16⟩

/-- A first-connection Connect packet from the fixture player. -/
def connectPktA : Packet := Packet.new oneGuid (.connect .firstConnection 0 (strBytes "A"))

/-- A non-Connect first packet. -/
def disconnectPkt : Packet := Packet.new oneGuid .disconnect

/-- Cached Game packet in SandWorldHomeStage. -/
def gamePktSand : Packet := Packet.new oneGuid (.game false 0 (strBytes "SandWorldHomeStage"))

/-- Incoming Game packet in LakeWorldHomeStage. -/
def gamePktLake : Packet := Packet.new oneGuid (.game true 2 (strBytes "LakeWorldHomeStage"))

/-- Player fixture with a cached Game packet and a cached Player packet. -/
def playerWithGame : PlayerData :=
  { basePlayer with
    last_game_packet := Option.some gamePktSand,
    last_player_packet := Option.some (Packet.new oneGuid (.player ⟨0, 0, 0⟩ ⟨0, 0, 0, 0⟩
      [0, 0, 0, 0, 0, 0] 0 0)) }

/-- Equality on Except results is decidable componentwise. -/
instance {ε α : Type} [DecidableEq ε] [DecidableEq α] : DecidableEq (Except ε α) := fun x y =>
  match x, y with
  | .ok a, .ok b =>
    if h : a = b then .isTrue (by rw [h])
    else .isFalse (by intro hc; injection hc; contradiction)
  | .error a, .error b =>
    if h : a = b then .isTrue (by rw [h])
    else .isFalse (by intro hc; injection hc; contradiction)
  | .ok _, .error _ => .isFalse (by intro hc; cases hc)
  | .error _, .ok _ => .isFalse (by intro hc; cases hc)

/-! # Helper lemmas -/

set_option maxRecDepth 10000

theorem decode_frame (idb : List Nat) (hid : idb.length = 16) (t s : Nat) (ht : t < 65536)
    (hs : s < 65536) (body : List Nat) :
    decode (idb ++ (u16leBytes t ++ (u16leBytes s ++ body))) =
      decodeBody idb t s body (20 + body.length) := by
  have hlen : (idb ++ (u16leBytes t ++ (u16leBytes s ++ body))).length = 20 + body.length := by
    simp [u16leBytes, hid]
    omega
  have htake : (idb ++ (u16leBytes t ++ (u16leBytes s ++ body))).take 16 = idb :=
    List.take_left' hid
  have hdrop : (idb ++ (u16leBytes t ++ (u16leBytes s ++ body))).drop 20 = body := by
    rw [show idb ++ (u16leBytes t ++ (u16leBytes s ++ body)) =
      (idb ++ u16leBytes t ++ u16leBytes s) ++ body by simp [List.append_assoc]]
    exact List.drop_left' (by simp [u16leBytes, hid])
  have h16 : (idb ++ (u16leBytes t ++ (u16leBytes s ++ body))).getD 16 0 = t % 256 := by
    rw [List.getD_append_right idb _ 0 16 (by omega), hid]
    simp [u16leBytes]
  have h17 : (idb ++ (u16leBytes t ++ (u16leBytes s ++ body))).getD 17 0 = t / 256 % 256 := by
    rw [List.getD_append_right idb _ 0 17 (by omega), hid]
    simp [u16leBytes]
  have h18 : (idb ++ (u16leBytes t ++ (u16leBytes s ++ body))).getD 18 0 = s % 256 := by
    rw [List.getD_append_right idb _ 0 18 (by omega), hid]
    simp [u16leBytes]
  have h19 : (idb ++ (u16leBytes t ++ (u16leBytes s ++ body))).getD 19 0 = s / 256 % 256 := by
    rw [List.getD_append_right idb _ 0 19 (by omega), hid]
    simp [u16leBytes]
  unfold decode
  rw [if_neg (by omega)]
  rw [htake, hdrop, hlen, h16, h17, h18, h19]
  have hu : u16leVal (t % 256) (t / 256 % 256) = t := by unfold u16leVal; omega
  have hv : u16leVal (s % 256) (s / 256 % 256) = s := by unfold u16leVal; omega
  rw [hu, hv]

theorem decodeBody_finish (id0 : List Nat) (pType pSize : Nat) (body : List Nat) (total : Nat)
    (data : PacketData) (rest : List Nat)
    (hT : pType ≠ 0x5453) (hlt : ¬ body.length < pSize)
    (harm : decodeArm pType pSize id0 body = .ok data rest)
    (hge : data.getSize ≤ pSize) (hrest : pSize - data.getSize ≤ rest.length) :
    decodeBody id0 pType pSize body total =
      .ok ⟨⟨id0⟩, pSize, data⟩ (rest.drop (pSize - data.getSize)) := by
  unfold decodeBody
  rw [if_neg (show ¬ (pType ≠ 0x5453 ∧ body.length < pSize) from fun h => hlt h.2)]
  rw [harm]
  simp only [if_neg hT]
  rw [if_neg (by omega)]
  rw [if_neg (by omega)]

theorem nibbleSplit : ∀ b : Fin 256,
    ((b.val &&& 240) >>> 4 = b.val / 16) ∧ (b.val &&& 15 = b.val % 16) := by decide

theorem nibbleJoin : ∀ b : Fin 256,
    (GameMode.toU8 (GameMode.fromU8 (b.val / 16)) * 16) ||| (b.val % 16) = b.val := by decide

theorem lookupPlayer_map_value (ps : List (Guid × PlayerData)) (g : Guid)
    (f : PlayerData → PlayerData) :
    lookupPlayer (ps.map (fun q => (q.1, f q.2))) g = (lookupPlayer ps g).map f := by
  induction ps with
  | nil => rfl
  | cons hd tl ih =>
    unfold lookupPlayer at ih ⊢
    by_cases hh : hd.1 = g
    · simp [List.find?_cons, hh]
    · simp only [List.map_cons, List.find?_cons, decide_eq_false hh]
      exact ih

theorem lookupPlayer_updatePlayer (ps : List (Guid × PlayerData)) (g : Guid)
    (f : PlayerData → PlayerData) :
    lookupPlayer (updatePlayer ps g f) g = (lookupPlayer ps g).map f := by
  induction ps with
  | nil => rfl
  | cons hd tl ih =>
    unfold lookupPlayer updatePlayer at ih ⊢
    by_cases hh : hd.1 = g
    · simp [List.find?_cons, hh]
    · simp only [List.map_cons, if_neg hh, List.find?_cons, decide_eq_false hh]
      exact ih

theorem syncAllShines_only_sends (l : Lobby) (e : Effect) (he : e ∈ syncAllShines l) :
    ∃ g c, e = .sendTo g c := by
  unfold syncAllShines at he
  by_cases hen : !l.settings.shines.enabled
  · rw [if_pos hen] at he
    cases he
  · rw [if_neg hen] at he
    simp only [List.mem_flatMap] at he
    obtain ⟨q, _, hq⟩ := he
    by_cases hd : q.2.disable_shine_sync
    · simp [hd] at hq
    · simp only [if_neg hd, clientSyncShines, List.mem_map] at hq
      obtain ⟨sh, _, hsh⟩ := hq
      exact ⟨q.1, _, hsh.symm⟩

theorem syncAllShines_filter_eq_nil (l : Lobby) (pr : Effect → Bool)
    (h : ∀ g c, pr (Effect.sendTo g c) = false) : (syncAllShines l).filter pr = [] := by
  rw [List.filter_eq_nil_iff]
  intro e he
  obtain ⟨g, c, rfl⟩ := syncAllShines_only_sends l e he
  simp [h]

theorem sentShineCmdsTo_append (g : Guid) (xs ys : List Effect) :
    sentShineCmdsTo g (xs ++ ys) = sentShineCmdsTo g xs ++ sentShineCmdsTo g ys := by
  simp [sentShineCmdsTo, List.filterMap_append]

theorem sentShineCmdsTo_sendList (g g2 : Guid) (cmd : Int → ClientCommand) (xs : List Int) :
    sentShineCmdsTo g (xs.map (fun s => Effect.sendTo g2 (cmd s))) =
      if g2 = g then xs.map cmd else [] := by
  induction xs with
  | nil => simp [sentShineCmdsTo]
  | cons x txs ih =>
    unfold sentShineCmdsTo at ih ⊢
    simp only [List.map_cons, List.filterMap_cons]
    by_cases hg : g2 = g
    · simp only [if_pos hg] at ih ⊢
      rw [ih]
    · simp only [if_neg hg] at ih ⊢
      rw [ih]

theorem sentShineCmdsTo_clientSync (g g2 : Guid) (S : Finset Int) (d : Guid) (C : Finset Int) :
    sentShineCmdsTo g (clientSyncShines g2 S d C) =
      if g2 = g then ((S \ C).sort (fun a b => a ≤ b)).map
        (fun s => ClientCommand.selfAddressed (Packet.new d (.shine s false)))
      else [] := by
  unfold clientSyncShines
  exact sentShineCmdsTo_sendList g g2 _ _

theorem sentShineCmdsTo_flatMap (g : Guid) (P : PlayerData) (ps : List (Guid × PlayerData))
    (S E : Finset Int) (hnd : (ps.map Prod.fst).Nodup) (hmem : (g, P) ∈ ps) :
    sentShineCmdsTo g (ps.flatMap (fun q => if q.2.disable_shine_sync then []
      else clientSyncShines q.1 S Guid.default (q.2.shine_sync ∪ E))) =
      if P.disable_shine_sync then []
      else ((S \ (P.shine_sync ∪ E)).sort (fun a b => a ≤ b)).map
        (fun s => ClientCommand.selfAddressed (Packet.new Guid.default (.shine s false))) := by
  have habsent : ∀ (qs : List (Guid × PlayerData)), g ∉ qs.map Prod.fst →
      sentShineCmdsTo g (qs.flatMap (fun q => if q.2.disable_shine_sync then []
        else clientSyncShines q.1 S Guid.default (q.2.shine_sync ∪ E))) = [] := by
    intro qs
    induction qs with
    | nil => intro _; rfl
    | cons hd tl ih =>
      intro hng
      simp only [List.map_cons, List.mem_cons, not_or] at hng
      simp only [List.flatMap_cons]
      rw [sentShineCmdsTo_append, ih hng.2]
      by_cases hdis : hd.2.disable_shine_sync
      · simp [hdis, sentShineCmdsTo]
      · simp only [if_neg hdis]
        rw [sentShineCmdsTo_clientSync,
          if_neg (show ¬ hd.1 = g from fun h => hng.1 h.symm)]
        simp
  induction ps with
  | nil => cases hmem
  | cons hd tl ih =>
    have hnd2 : hd.1 ∉ tl.map Prod.fst ∧ (tl.map Prod.fst).Nodup := by
      rw [List.map_cons] at hnd
      exact List.nodup_cons.mp hnd
    simp only [List.flatMap_cons]
    rw [sentShineCmdsTo_append]
    rcases List.mem_cons.mp hmem with heq | hmemtl
    · have hhd : hd = (g, P) := heq.symm
      subst hhd
      have hng : g ∉ tl.map Prod.fst := hnd2.1
      rw [habsent tl hng]
      by_cases hdis : P.disable_shine_sync
      · simp [hdis, sentShineCmdsTo]
      · simp only [if_neg hdis]
        rw [sentShineCmdsTo_clientSync]
        simp
    · have hgtl : g ∈ tl.map Prod.fst :=
        List.mem_map.mpr ⟨(g, P), hmemtl, rfl⟩
      have hne : hd.1 ≠ g := by
        intro hc
        apply hnd2.1
        rw [hc]
        exact hgtl
      rw [ih hnd2.2 hmemtl]
      by_cases hdis : hd.2.disable_shine_sync
      · simp [hdis, sentShineCmdsTo]
      · simp only [if_neg hdis]
        rw [sentShineCmdsTo_clientSync, if_neg hne]
        simp

theorem handlePacketCmd_shine (l : Lobby) (p : Packet) (sid : Int) (gr : Bool)
    (hp : p.data = .shine sid gr) :
    handlePacketCmd l p =
      if sid ∈ l.settings.shines.excluded then .ok (l, [.log])
      else .ok ({ l with shines := insert sid l.shines },
        [.log] ++ syncAllShines { l with shines := insert sid l.shines }) := by
  unfold handlePacketCmd
  rw [hp]

theorem handlePacketCmd_game_gate (l : Lobby) (p : Packet) (is2d : Bool) (scen : Int)
    (stage : List Nat) (hp : p.data = .game is2d scen stage)
    (hban : ¬ (l.settings.ban_list.enabled ∧ stage ∈ l.settings.ban_list.stages))
    (hstage : stage = capWorldHomeStage ∨ stage = capWorldTowerStage) (hscen : scen = 1)
    (P : PlayerData) (hP : lookupPlayer l.players p.id = some P)
    (hdis : P.disable_shine_sync = false) :
    handlePacketCmd l p = .ok (gateLobby l p.id,
      persistShinesEffects (gateLobby l p.id) ++ gameTailEffects (gateLobby l p.id) p) := by
  simp only [handlePacketCmd, hp, if_neg hban, hP]
  rw [if_pos ⟨hstage, hscen⟩, hdis, if_pos (show (!false) = true from rfl)]
  rfl

/-! # Claim theorems, counterexamples and witnesses -/

/-- C4 (amended): for every kind-5 frame, decode splits the first payload
byte into game_mode = high nibble and update_type = low nibble, and yields a
Tag variant exactly when game_mode is HideAndSeek or Sardines, or game_mode
is Legacy with update_type 3; otherwise a GameMode variant carrying the
remaining data_size - 1 bytes. Encoding the decoded variant reproduces the
first byte whenever the variant is GameMode, or is Tag with low nibble at
most 3 (a Tag byte with low nibble 4..15 re-encodes with low nibble 0). -/
theorem C4_kind5_split (idb : List Nat) (hid : idb.length = 16) (b : Nat) (hb : b < 256)
    (payload : List Nat) (hsz : payload.length + 1 < 65536) :
    (¬ kind5IsTag b →
      decode (idb ++ (u16leBytes 5 ++ (u16leBytes (payload.length + 1) ++ (b :: payload)))) =
        .ok ⟨⟨idb⟩, payload.length + 1, .gameMode (GameMode.fromU8 (b / 16)) (b % 16) payload⟩ [])
    ∧ (kind5IsTag b → ∀ i s m0 m1 rest2, payload = i :: s :: m0 :: m1 :: rest2 →
      decode (idb ++ (u16leBytes 5 ++ (u16leBytes (payload.length + 1) ++ (b :: payload)))) =
        .ok ⟨⟨idb⟩, payload.length + 1,
          .tag (GameMode.fromU8 (b / 16)) (tagUpdateFromNibble (b % 16)) (i != 0) s (u16leVal m0 m1)⟩ [])
    ∧ (¬ kind5IsTag b →
        (encodeData (.gameMode (GameMode.fromU8 (b / 16)) (b % 16) payload)).head? = some b)
    ∧ (kind5IsTag b → b % 16 ≤ 3 → ∀ is_it seconds minutes,
        (encodeData (.tag (GameMode.fromU8 (b / 16)) (tagUpdateFromNibble (b % 16))
          is_it seconds minutes)).head? = some b) := by
  have hfr := decode_frame idb hid 5 (payload.length + 1) (by norm_num) (by omega) (b :: payload)
  have hsplit := nibbleSplit ⟨b, hb⟩
  have hjoin := nibbleJoin ⟨b, hb⟩
  simp only at hsplit hjoin
  refine ⟨?_, ?_, ?_, ?_⟩
  · intro hnot
    rw [hfr]
    have harm : decodeArm 5 (payload.length + 1) idb (b :: payload) =
        .ok (.gameMode (GameMode.fromU8 (b / 16)) (b % 16) payload) [] := by
      unfold decodeArm
      simp only [readU8, ReadResult.bind, hsplit.1, hsplit.2]
      rw [if_neg (by unfold kind5IsTag at hnot; tauto)]
      rw [if_neg (by omega)]
      simp [readChunk, ReadResult.bind]
    rw [decodeBody_finish idb 5 (payload.length + 1) (b :: payload) _ _ [] (by decide)
      (by simp) harm (by simp [PacketData.getSize]; omega)
      (by simp [PacketData.getSize]; omega)]
    rw [List.drop_nil]
  · intro htag i s m0 m1 rest2 hpl
    subst hpl
    rw [hfr]
    have harm : decodeArm 5 ((i :: s :: m0 :: m1 :: rest2).length + 1) idb
        (b :: i :: s :: m0 :: m1 :: rest2) =
        .ok (.tag (GameMode.fromU8 (b / 16)) (tagUpdateFromNibble (b % 16))
          (i != 0) s (u16leVal m0 m1)) rest2 := by
      unfold decodeArm
      simp only [readU8, ReadResult.bind, hsplit.1, hsplit.2]
      rw [if_pos (by unfold kind5IsTag at htag; tauto)]
      simp [readU16le, readU8, ReadResult.bind]
    rw [decodeBody_finish idb 5 ((i :: s :: m0 :: m1 :: rest2).length + 1)
      (b :: i :: s :: m0 :: m1 :: rest2) _ _ rest2 (by decide)
      (by simp) harm (by simp [PacketData.getSize]) (by simp [PacketData.getSize])]
    have hdr : (i :: s :: m0 :: m1 :: rest2).length + 1 -
        (PacketData.tag (GameMode.fromU8 (b / 16)) (tagUpdateFromNibble (b % 16))
          (i != 0) s (u16leVal m0 m1)).getSize = rest2.length := by
      simp [PacketData.getSize]
    rw [hdr, List.drop_length]
  · intro hnot
    simp only [encodeData, List.cons_append, List.nil_append, List.head?_cons]
    rw [hjoin]
  · intro htag hle is_it seconds minutes
    simp only [encodeData, List.cons_append, List.nil_append, List.head?_cons]
    have h4 : b % 16 = 0 ∨ b % 16 = 1 ∨ b % 16 = 2 ∨ b % 16 = 3 := by omega
    rcases h4 with h | h | h | h <;>
      (rw [h] at hjoin ⊢; simp [tagUpdateFromNibble, TagUpdate.code, hjoin])

/-- C9 (amended): the Display form of a Guid is the 32 lowercase hex digits
of its 16 bytes with a dash inserted after the bytes at 0-based indices 4,
6, 8 and 10, that is, hex-digit groups of 10-4-4-4-10 (not 8-4-4-4-12). -/
theorem C9_display_grouping (g : Guid) (h : g.id.length = 16) :
    guidDisplay g = guidGroups1044410 g := by
  obtain ⟨l⟩ := g
  simp only at h ⊢
  rcases l with _ | ⟨b0, _ | ⟨b1, _ | ⟨b2, _ | ⟨b3, _ | ⟨b4, _ | ⟨b5, _ | ⟨b6, _ | ⟨b7,
    _ | ⟨b8, _ | ⟨b9, _ | ⟨b10, _ | ⟨b11, _ | ⟨b12, _ | ⟨b13, _ | ⟨b14, _ | ⟨b15, t⟩⟩⟩⟩⟩⟩⟩⟩⟩⟩⟩⟩⟩⟩⟩⟩
  all_goals try (exfalso; simp at h; done)
  have ht : t = [] := by simpa using h
  subst ht
  simp [guidDisplay, guidGroups1044410, guidHexDigits, byteHex, List.enum, List.enumFrom]

/-- C2 (amended): when the coordinator handles Command::Packet carrying
Shine, an excluded shine id only logs and leaves the lobby unchanged, and a
non-excluded id is inserted into lobby.shines followed by sync_all_shines;
in neither case is the Shine packet broadcast (the handler returns before
the broadcast step). -/
theorem C2_shine_handling (l : Lobby) (p : Packet) (sid : Int) (gr : Bool)
    (hp : p.data = .shine sid gr) :
    (sid ∈ l.settings.shines.excluded → handlePacketCmd l p = .ok (l, [.log]))
    ∧ (sid ∉ l.settings.shines.excluded →
        handlePacketCmd l p = .ok ({ l with shines := insert sid l.shines },
          [.log] ++ syncAllShines { l with shines := insert sid l.shines }))
    ∧ (∀ l2 effs, handlePacketCmd l p = .ok (l2, effs) →
        ∀ c : ClientCommand, Effect.broadcast c ∉ effs) := by
  have he := handlePacketCmd_shine l p sid gr hp
  refine ⟨?_, ?_, ?_⟩
  · intro hmem
    rw [he, if_pos hmem]
  · intro hmem
    rw [he, if_neg hmem]
  · intro l2 effs hok c hc
    rw [he] at hok
    by_cases hmem : sid ∈ l.settings.shines.excluded
    · rw [if_pos hmem] at hok
      injection hok with hok2
      rw [← (Prod.mk.injEq _ _ _ _).mp hok2 |>.2] at hc
      simp at hc
    · rw [if_neg hmem] at hok
      injection hok with hok2
      rw [← (Prod.mk.injEq _ _ _ _).mp hok2 |>.2] at hc
      rcases List.mem_append.mp hc with h1 | h1
      · simp at h1
      · obtain ⟨g2, c2, hshape⟩ := syncAllShines_only_sends _ _ h1
        cases hshape

/-- C3 (amended): when the coordinator handles a Game packet with stage
CapWorldHomeStage or CapWorldTowerStage, scenario_num 1, a sender present
in the player map with disable_shine_sync false, and the stage not rejected
by the stage ban list, then afterwards the sender has disable_shine_sync
true and an empty shine_sync, and the lobby shine set is empty. -/
theorem C3_new_save_gate (l : Lobby) (p : Packet) (is2d : Bool) (scen : Int)
    (stage : List Nat) (hp : p.data = .game is2d scen stage)
    (hban : ¬ (l.settings.ban_list.enabled ∧ stage ∈ l.settings.ban_list.stages))
    (hstage : stage = capWorldHomeStage ∨ stage = capWorldTowerStage) (hscen : scen = 1)
    (P : PlayerData) (hP : lookupPlayer l.players p.id = some P)
    (hdis : P.disable_shine_sync = false) :
    handlePacketCmd l p = .ok (gateLobby l p.id,
      persistShinesEffects (gateLobby l p.id) ++ gameTailEffects (gateLobby l p.id) p)
    ∧ (gateLobby l p.id).shines = ∅
    ∧ lookupPlayer (gateLobby l p.id).players p.id =
        some { P with disable_shine_sync := true, shine_sync := ∅ } := by
  refine ⟨handlePacketCmd_game_gate l p is2d scen stage hp hban hstage hscen P hP hdis, rfl, ?_⟩
  simp only [gateLobby]
  rw [lookupPlayer_updatePlayer, hP]
  rfl

/-- C10: handling the external command Shine Clear empties lobby.shines,
clears the shine_sync of every player in the map, leaves the settings and
every other per-player field unchanged, sends nothing, and replies with the
string "Shines cleared". -/
theorem C10_shine_clear (l : Lobby) :
    (handleExternalShineCmd l .clear).1.shines = ∅
    ∧ (handleExternalShineCmd l .clear).1.settings = l.settings
    ∧ (handleExternalShineCmd l .clear).2.1 = []
    ∧ (handleExternalShineCmd l .clear).2.2 = "Shines cleared"
    ∧ (∀ g P, lookupPlayer l.players g = some P →
        lookupPlayer (handleExternalShineCmd l .clear).1.players g =
          some ⟨P.ipv4, P.name, ∅, P.scenario, P.is_2d, P.is_seeking, P.last_capture_packet,
            P.last_costume_packet, P.last_game_packet, P.last_player_packet,
            P.disable_shine_sync, P.loaded_save, P.time⟩)
    ∧ (∀ g, lookupPlayer l.players g = none →
        lookupPlayer (handleExternalShineCmd l .clear).1.players g = none) := by
  refine ⟨rfl, rfl, rfl, rfl, ?_, ?_⟩
  · intro g P hP
    show lookupPlayer (l.players.map (fun q => (q.1, clearShineSync q.2))) g = _
    rw [lookupPlayer_map_value, hP]
    rfl
  · intro g hP
    show lookupPlayer (l.players.map (fun q => (q.1, clearShineSync q.2))) g = _
    rw [lookupPlayer_map_value, hP]
    rfl

/-- C5 (amended): provided settings.shines.enabled is true, sync_all_shines
sends to each player with disable_shine_sync false exactly one SelfAddressed
Shine packet (with is_grand false) per id in lobby.shines minus the union of
the player shine_sync and settings.shines.excluded, and sends zero Shine
packets to every player with disable_shine_sync true. -/
theorem C5_sync_all_shines (l : Lobby) (g : Guid) (P : PlayerData)
    (hnd : (l.players.map Prod.fst).Nodup) (hmem : (g, P) ∈ l.players)
    (hen : l.settings.shines.enabled = true) :
    (P.disable_shine_sync = true → sentShineCmdsTo g (syncAllShines l) = [])
    ∧ (P.disable_shine_sync = false →
        sentShineCmdsTo g (syncAllShines l) =
          ((l.shines \ (P.shine_sync ∪ l.settings.shines.excluded)).sort (fun a b => a ≤ b)).map
            (fun s => ClientCommand.selfAddressed (Packet.new Guid.default (.shine s false))))
    ∧ (P.disable_shine_sync = false → ∀ s : Int,
        (sentShineCmdsTo g (syncAllShines l)).count
          (ClientCommand.selfAddressed (Packet.new Guid.default (.shine s false))) =
          if s ∈ l.shines \ (P.shine_sync ∪ l.settings.shines.excluded) then 1 else 0) := by
  have hmain : sentShineCmdsTo g (syncAllShines l) =
      if P.disable_shine_sync then []
      else ((l.shines \ (P.shine_sync ∪ l.settings.shines.excluded)).sort (fun a b => a ≤ b)).map
        (fun s => ClientCommand.selfAddressed (Packet.new Guid.default (.shine s false))) := by
    unfold syncAllShines
    rw [hen]
    simp only [Bool.not_true, Bool.false_eq_true, if_false]
    exact sentShineCmdsTo_flatMap g P l.players l.shines l.settings.shines.excluded hnd hmem
  have hinj : Function.Injective
      (fun s : Int => ClientCommand.selfAddressed (Packet.new Guid.default (.shine s false))) := by
    intro a b hab
    have h2 : (PacketData.shine a false).getSize = (PacketData.shine b false).getSize ∧ a = b := by
      simpa [Packet.new] using hab
    exact h2.2
  refine ⟨?_, ?_, ?_⟩
  · intro hdis
    rw [hmain, if_pos hdis]
  · intro hdis
    rw [hmain, if_neg (by rw [hdis]; exact Bool.false_ne_true)]
  · intro hdis s
    rw [hmain, if_neg (by rw [hdis]; exact Bool.false_ne_true)]
    rw [List.count_map_of_injective _ _ hinj]
    by_cases hs : s ∈ l.shines \ (P.shine_sync ∪ l.settings.shines.excluded)
    · rw [if_pos hs]
      exact List.count_eq_one_of_mem (Finset.sort_nodup _ _) ((Finset.mem_sort _).mpr hs)
    · rw [if_neg hs]
      exact List.count_eq_zero_of_not_mem (fun hc => hs ((Finset.mem_sort _).mp hc))

/-- C6 (amended): of the three lobby.shines mutations, only the new-save
gate clear is followed by spawning the best-effort persistence task (when
settings.persist_shines.enabled); the insert performed when a Shine packet
is accepted spawns no persistence task, and the external Shine Clear
command spawns nothing at all. -/
theorem C6_persist_only_new_save_gate :
    (∀ (l : Lobby) (p : Packet) (is2d : Bool) (scen : Int) (stage : List Nat) (P : PlayerData),
      p.data = .game is2d scen stage →
      ¬ (l.settings.ban_list.enabled ∧ stage ∈ l.settings.ban_list.stages) →
      (stage = capWorldHomeStage ∨ stage = capWorldTowerStage) → scen = 1 →
      lookupPlayer l.players p.id = some P → P.disable_shine_sync = false →
      l.settings.persist_shines.enabled = true →
      ∀ l2 effs, handlePacketCmd l p = .ok (l2, effs) →
        Effect.persistShines l.settings.persist_shines.filename ∅ ∈ effs)
    ∧ (∀ (l : Lobby) (p : Packet) (sid : Int) (gr : Bool), p.data = .shine sid gr →
        ∀ l2 effs, handlePacketCmd l p = .ok (l2, effs) →
          ∀ (f : List Nat) (sh : Finset Int), Effect.persistShines f sh ∉ effs)
    ∧ (∀ l : Lobby, (handleExternalShineCmd l .clear).1.shines = ∅
        ∧ (handleExternalShineCmd l .clear).2.1 = []) := by
  refine ⟨?_, ?_, fun l => ⟨rfl, rfl⟩⟩
  · intro l p is2d scen stage P hp hban hstage hscen hP hdis hpe l2 effs hok
    rw [handlePacketCmd_game_gate l p is2d scen stage hp hban hstage hscen P hP hdis] at hok
    injection hok with hok2
    rw [← (Prod.mk.injEq _ _ _ _).mp hok2 |>.2]
    apply List.mem_append.mpr
    left
    unfold persistShinesEffects gateLobby
    simp only
    rw [if_pos hpe]
    simp
  · intro l p sid gr hp l2 effs hok f sh hc
    rw [handlePacketCmd_shine l p sid gr hp] at hok
    by_cases hmem : sid ∈ l.settings.shines.excluded
    · rw [if_pos hmem] at hok
      injection hok with hok2
      rw [← (Prod.mk.injEq _ _ _ _).mp hok2 |>.2] at hc
      simp at hc
    · rw [if_neg hmem] at hok
      injection hok with hok2
      rw [← (Prod.mk.injEq _ _ _ _).mp hok2 |>.2] at hc
      rcases List.mem_append.mp hc with h1 | h1
      · simp at h1
      · obtain ⟨g2, c2, hshape⟩ := syncAllShines_only_sends _ _ h1
        cases hshape

/-- C8: for every client whose cached last_game_packet has stage s,
handling an incoming Game packet whose stage differs from s leaves
last_player_packet cleared to None, and the new Game packet is cached as
last_game_packet. -/
theorem C8_stage_change_clears_player_cache (d : PlayerData) (p q : Packet) (is2d : Bool)
    (scen : Int) (stage : List Nat) (hp : p.data = .game is2d scen stage)
    (hq : d.last_game_packet = some q) (i2 : Bool) (s2 : Int) (lstage : List Nat)
    (hqd : q.data = .game i2 s2 lstage) (hne : stage ≠ lstage) :
    (clientUpdateOnGame d p).last_player_packet = Option.none
    ∧ (clientUpdateOnGame d p).last_game_packet = Option.some p := by
  simp only [clientUpdateOnGame, hp, hq, hqd]
  rw [if_pos hne]
  exact ⟨rfl, trivial⟩

/-- C7 (amended): during initialization the server first awaits one packet;
if that packet is not a Connect packet, initialization fails with
BadHandshake after the single read; if it is a Connect packet from a
non-banned id, the server then writes Init with max_players, so the trace
begins with the read followed by the Init write (not the other way
around). -/
theorem C7_handshake_order (maxPlayers : Nat) (udp : Bool) (banned : Finset Guid)
    (names : List (Guid × List Nat)) (port : Nat) :
    (∀ (p : Packet) (rest : List Packet),
      (∀ (ct : ConnectionType) (mp : Nat) (nm : List Nat), p.data ≠ .connect ct mp nm) →
      initializeClient maxPlayers udp banned names port (p :: rest) =
        ([.readPacket p], .error .badHandshake))
    ∧ (∀ (p : Packet) (rest : List Packet) (ct : ConnectionType) (mp : Nat) (nm : List Nat),
        p.data = .connect ct mp nm → p.id ∉ banned →
        (initializeClient maxPlayers udp banned names port (p :: rest)).1.take 2 =
          [.readPacket p, .writePacket (Packet.new Guid.default (.init maxPlayers))]) := by
  constructor
  · intro p rest hnc
    cases hd : p.data <;>
      first
        | (exact absurd hd (hnc _ _ _))
        | simp [initializeClient, hd]
  · intro p rest ct mp nm hpd hnb
    simp only [initializeClient, hpd]
    rw [if_neg hnb]
    split <;> simp

/-- C1 (code bug): the round trip decode(encode(p)) fails for a resized Cap
packet with the one-byte cap_anim "a": encode writes the 48-byte NUL-padded
CAP_ANIM_SIZE field, but decode reads only COSTUME_NAME_SIZE = 32 bytes of
it without trimming trailing NULs, so the decoded packet carries "a"
followed by 31 NULs, 16 bytes of the frame are left unconsumed, and the
decoded packet is not equal (Rust PartialEq) to the original. -/
theorem C1_cap_anim_decode_bug :
    capBugInput.data_size = capBugInput.data.getSize
    ∧ decode (encode capBugInput) = .ok capBugOutput (List.replicate 16 0)
    ∧ packetEq capBugOutput capBugInput = false := by decide

/-- C4 counterexample: the kind-5 first byte 0x15 (HideAndSeek nibble,
update nibble 5) decodes to a Tag variant with update_type Unknown, and
encoding that variant writes first byte 0x10, not 0x15 — so encoding the
decoded variant does not reproduce every such first byte. -/
theorem C4_counterexample :
    decode frame15C4 = .ok ⟨zeroGuid, 5, .tag .hideAndSeek .unknown false 0 0⟩ []
    ∧ (encodeData (.tag .hideAndSeek .unknown false 0 0)).head? = some 0x10
    ∧ frame15C4.getD 20 0 = 0x15 := by decide

/-- C2 counterexample: handling a non-excluded Shine{42} inserts the id and
runs sync_all_shines, but the produced effects contain no broadcast at all,
contrary to the claim that the Shine packet is then broadcast. -/
theorem C2_counterexample :
    handlePacketCmd lobbyOne shinePkt42 =
      .ok ({ lobbyOne with shines := insert 42 lobbyOne.shines },
        [.log] ++ syncAllShines { lobbyOne with shines := insert 42 lobbyOne.shines })
    ∧ (([Effect.log] ++ syncAllShines { lobbyOne with shines := insert 42 lobbyOne.shines }).filter
        isBroadcastEffect) = [] := by
  constructor
  · rw [handlePacketCmd_shine lobbyOne shinePkt42 42 false rfl, if_neg (by decide)]
  · rw [List.filter_append, syncAllShines_filter_eq_nil _ _ (fun g c => rfl)]
    rfl

/-- C3 counterexample: with the stage ban list enabled and containing
CapWorldHomeStage, handling Game{CapWorldHomeStage, scenario 1} from a
player with disable_shine_sync false only schedules the crash and leaves
the lobby untouched: disable_shine_sync stays false and lobby.shines stays
nonempty, contrary to the claim. -/
theorem C3_counterexample :
    handlePacketCmd lobbyBanCap gamePktCap = .ok (lobbyBanCap, [.spawnCrash oneGuid])
    ∧ lookupPlayer lobbyBanCap.players oneGuid = some basePlayer
    ∧ basePlayer.disable_shine_sync = false
    ∧ lobbyBanCap.shines ≠ ∅ := by decide

/-- C5 counterexample: with settings.shines.enabled false, sync_all_shines
sends nothing even though an eligible player has a nonempty shine diff,
contrary to the claim quantified over every lobby state. -/
theorem C5_counterexample :
    syncAllShines lobbyNoSync = []
    ∧ lookupPlayer lobbyNoSync.players oneGuid = some basePlayer
    ∧ basePlayer.disable_shine_sync = false
    ∧ lobbyNoSync.shines \ (basePlayer.shine_sync ∪ lobbyNoSync.settings.shines.excluded) ≠ ∅ := by
  decide

/-- C6 counterexample: with persist_shines.enabled true, accepting
Shine{7} mutates lobby.shines but the produced effects contain no
persistence task, contrary to the claim that every mutation is followed by
one. -/
theorem C6_counterexample :
    lobbyPersist.settings.persist_shines.enabled = true
    ∧ handlePacketCmd lobbyPersist shinePkt7 =
      .ok ({ lobbyPersist with shines := insert 7 lobbyPersist.shines },
        [.log] ++ syncAllShines { lobbyPersist with shines := insert 7 lobbyPersist.shines })
    ∧ (([Effect.log] ++ syncAllShines { lobbyPersist with shines := insert 7 lobbyPersist.shines }).filter
        isPersistEffect) = [] := by
  refine ⟨rfl, ?_, ?_⟩
  · rw [handlePacketCmd_shine lobbyPersist shinePkt7 7 false rfl, if_neg (by decide)]
  · rw [List.filter_append, syncAllShines_filter_eq_nil _ _ (fun g c => rfl)]
    rfl

/-- C7 counterexample: on a Connect first packet the handshake trace is the
read followed by the Init write, so its head is not the Init write,
contrary to the claimed write-then-await order. -/
theorem C7_counterexample :
    initializeClient 8 false ∅ [] 0 [connectPktA] =
      ([.readPacket connectPktA, .writePacket (Packet.new Guid.default (.init 8))], .ok ())
    ∧ (initializeClient 8 false ∅ [] 0 [connectPktA]).1.head? ≠
        some (.writePacket (Packet.new Guid.default (.init 8))) := by decide

/-- C9 counterexample: the guid 000102030405060708090a0b0c0d0e0f displays
as 0001020304-0506-0708-090a-0b0c0d0e0f (hex groups 10-4-4-4-10), which
differs from the claimed 8-4-4-4-12 grouping. -/
theorem C9_counterexample :
    guidDisplay guidC9 = "0001020304-0506-0708-090a-0b0c0d0e0f".toList
    ∧ guidDisplay guidC9 ≠ guidGroups844412 guidC9 := by decide

/-- C2 witness: the amended Shine handling applied to a concrete lobby and
a non-excluded Shine{42} packet. -/
theorem C2_witness :
    handlePacketCmd lobbyOne shinePkt42 =
      .ok ({ lobbyOne with shines := insert 42 lobbyOne.shines },
        [.log] ++ syncAllShines { lobbyOne with shines := insert 42 lobbyOne.shines }) :=
  (C2_shine_handling lobbyOne shinePkt42 42 false rfl).2.1 (by decide)

/-- C3 witness: the new-save gate applied to a concrete one-player lobby
and a Game{CapWorldHomeStage, scenario 1} packet. -/
theorem C3_witness :
    handlePacketCmd lobbyOne gamePktCap = .ok (gateLobby lobbyOne gamePktCap.id,
      persistShinesEffects (gateLobby lobbyOne gamePktCap.id)
        ++ gameTailEffects (gateLobby lobbyOne gamePktCap.id) gamePktCap)
    ∧ (gateLobby lobbyOne gamePktCap.id).shines = ∅
    ∧ lookupPlayer (gateLobby lobbyOne gamePktCap.id).players gamePktCap.id =
        some { basePlayer with disable_shine_sync := true, shine_sync := ∅ } :=
  C3_new_save_gate lobbyOne gamePktCap false 1 capWorldHomeStage rfl (by decide)
    (Or.inl rfl) rfl basePlayer (by decide) rfl

/-- C4 witness: the kind-5 split applied to the concrete byte 0x23
(Sardines, update nibble 3) with a 4-byte Tag payload. -/
theorem C4_witness :
    decode (List.replicate 16 0 ++ (u16leBytes 5 ++ (u16leBytes ([1, 2, 3, 0].length + 1)
        ++ (0x23 :: [1, 2, 3, 0])))) =
      .ok ⟨⟨List.replicate 16 0⟩, [1, 2, 3, 0].length + 1,
        .tag (GameMode.fromU8 (0x23 / 16)) (tagUpdateFromNibble (0x23 % 16))
          ((1 : Nat) != 0) 2 (u16leVal 3 0)⟩ [] :=
  (C4_kind5_split (List.replicate 16 0) (by decide) 0x23 (by decide) [1, 2, 3, 0]
    (by decide)).2.1 (by decide) 1 2 3 0 [] rfl

/-- C5 witness: sync_all_shines applied to a concrete two-player lobby with
shine sync enabled. -/
theorem C5_witness :
    sentShineCmdsTo oneGuid (syncAllShines lobbyTwo) =
      ((lobbyTwo.shines \ (basePlayer.shine_sync ∪ lobbyTwo.settings.shines.excluded)).sort
          (fun a b => a ≤ b)).map
        (fun s => ClientCommand.selfAddressed (Packet.new Guid.default (.shine s false))) :=
  (C5_sync_all_shines lobbyTwo oneGuid basePlayer (by decide) (by decide) rfl).2.1 rfl

/-- C6 witness: the gate-persistence part applied to a concrete lobby with
persistence enabled. -/
theorem C6_witness :
    Effect.persistShines lobbyPersist.settings.persist_shines.filename ∅ ∈
      (persistShinesEffects (gateLobby lobbyPersist gamePktCap.id)
        ++ gameTailEffects (gateLobby lobbyPersist gamePktCap.id) gamePktCap) :=
  C6_persist_only_new_save_gate.1 lobbyPersist gamePktCap false 1 capWorldHomeStage basePlayer
    rfl (by decide) (Or.inl rfl) rfl (by decide) rfl rfl
    (gateLobby lobbyPersist gamePktCap.id)
    (persistShinesEffects (gateLobby lobbyPersist gamePktCap.id)
      ++ gameTailEffects (gateLobby lobbyPersist gamePktCap.id) gamePktCap)
    (handlePacketCmd_game_gate lobbyPersist gamePktCap false 1 capWorldHomeStage rfl (by decide)
      (Or.inl rfl) rfl basePlayer (by decide) rfl)

/-- C7 witness: the handshake order applied to a concrete Connect first
packet from a non-banned id. -/
theorem C7_witness :
    (initializeClient 8 false ∅ [] 0 (connectPktA :: [])).1.take 2 =
      [.readPacket connectPktA, .writePacket (Packet.new Guid.default (.init 8))] :=
  (C7_handshake_order 8 false ∅ [] 0).2 connectPktA [] .firstConnection 0 (strBytes "A")
    rfl (by decide)

/-- C8 witness: the stage-change invariant applied to a concrete player
with a cached SandWorldHomeStage Game packet receiving a
LakeWorldHomeStage Game packet. -/
theorem C8_witness :
    (clientUpdateOnGame playerWithGame gamePktLake).last_player_packet = Option.none
    ∧ (clientUpdateOnGame playerWithGame gamePktLake).last_game_packet =
        Option.some gamePktLake :=
  C8_stage_change_clears_player_cache playerWithGame gamePktLake gamePktSand true 2
    (strBytes "LakeWorldHomeStage") rfl rfl false 0 (strBytes "SandWorldHomeStage") rfl
    (by decide)

/-- C9 witness: the display grouping applied to the concrete guid with
bytes 0x00..0x0f. -/
theorem C9_witness : guidDisplay guidC9 = guidGroups1044410 guidC9 :=
  C9_display_grouping guidC9 (by decide)

/-- C10 witness: the Shine Clear frame condition applied to the concrete
two-player lobby, at the player whose shine_sync was nonempty. -/
theorem C10_witness :
    lookupPlayer (handleExternalShineCmd lobbyTwo .clear).1.players twoGuid =
      some ⟨playerDisabled.ipv4, playerDisabled.name, ∅, playerDisabled.scenario,
        playerDisabled.is_2d, playerDisabled.is_seeking, playerDisabled.last_capture_packet,
        playerDisabled.last_costume_packet, playerDisabled.last_game_packet,
        playerDisabled.last_player_packet, playerDisabled.disable_shine_sync,
        playerDisabled.loaded_save, playerDisabled.time⟩ :=
  (C10_shine_clear lobbyTwo).2.2.2.2.1 twoGuid playerDisabled (by decide)

end SmoMulti
